import Mathlib

/-!
Verification of the LiveBlog Durable Object (src/unnamed/part_002).

The embedding models the per-room actor: its durable key-value storage
(key 'atoms' holding the event log, key 'metadata' holding the room
metadata), the in-memory session registry (a Map from WebSocket to a
session record, modelled as an association list keyed by an opaque
connection handle), the broadcast fan-out, and the request router.

Nondeterministic platform inputs (crypto.randomUUID, Date.now, whether a
storage put throws, whether a given ws.send throws, the DO id) are passed
as explicit parameters.
-/

/-- Opaque handle standing for one WebSocket object (reference identity). -/
abbrev Handle := Nat

/-- Atom: a single post in a live blog (interface Atom). -/
structure Atom where
  id : String
  content : String
  timestamp : Nat
  author : Option String
deriving Repr, DecidableEq

/-- LiveBlog metadata (interface LiveBlogMetadata). -/
structure LiveBlogMetadata where
  id : String
  name : String
  createdAt : Nat
deriving Repr, DecidableEq

/-- Session metadata attached to one connection: the generated session id. -/
structure Session where
  id : String
deriving Repr, DecidableEq

/-- The durable key-value storage of one room: key 'atoms' and key
'metadata'; a key never written reads back as undefined (none). -/
structure Storage where
  atoms : Option (List Atom)
  metadata : Option LiveBlogMetadata
deriving Repr, DecidableEq

/-- In-memory state of one LiveBlog instance: durable storage plus the
sessions Map (association list in Map insertion order). -/
structure DOState where
  storage : Storage
  sessions : List (Handle × Session)
deriving Repr, DecidableEq

/-- The platform's record of open WebSockets for this object, each with its
serialized attachment if one was ever attached (ctx.getWebSockets plus
deserializeAttachment). -/
abbrev HostConns := List (Handle × Option Session)

/-- A fresh room: nothing stored, no sessions. -/
def freshState : DOState :=
  { storage := { atoms := Option.none, metadata := Option.none },
    sessions := [] }

/-- A JSON value supplied for the `content` field of a POST body: either a
JSON string or some non-string value, of which the model keeps only its
JavaScript truthiness. -/
inductive JsValue where
  | str (s : String)
  | nonText (truthy : Bool)
deriving Repr, DecidableEq

/-- Parsed JSON body of a POST /atoms request (content and author fields,
each possibly absent). -/
structure CreateBody where
  content : Option JsValue
  author : Option String
deriving Repr, DecidableEq

/-- JavaScript truthiness test `!content` is this negated: undefined and
the empty string are falsy, non-strings keep their recorded truthiness. -/
def jsFalsy : Option JsValue → Bool
  | Option.none => true
  | some (JsValue.str s) => s == ""
  | some (JsValue.nonText t) => !t

/-- The check `typeof content === 'string'`. -/
def isStringContent : Option JsValue → Bool
  | some (JsValue.str _) => true
  | _ => false

/-- The guard `!content || typeof content !== 'string'` of handleCreateAtom. -/
def contentRejected (c : Option JsValue) : Bool :=
  jsFalsy c || !(isStringContent c)

/-- The string held by a valid content value (total; the default branch is
unreachable when `contentRejected` is false). -/
def contentString : Option JsValue → String
  | some (JsValue.str s) => s
  | _ => ""

/-- The ASCII portion of the WhiteSpace and LineTerminator classes that
JavaScript's String.prototype.trim removes. -/
def jsWhitespace (c : Char) : Bool :=
  c = ' ' || c = '\t' || c = '\n' || c = '\x0b' || c = '\x0c' || c = '\r'

/-- JavaScript content.trim(): strip leading and trailing whitespace. -/
def jsTrim (s : String) : String :=
  String.mk (((s.data.dropWhile jsWhitespace).reverse.dropWhile jsWhitespace).reverse)

/-- JavaScript path.endsWith(suffixStr). -/
def strEndsWith (s suffixStr : String) : Bool :=
  (suffixStr.data).isSuffixOf s.data

/-- JavaScript s.substring(0, n). -/
def strTake (s : String) (n : Nat) : String :=
  String.mk (s.data.take n)

/-- JavaScript `a || dflt` on an optional string: undefined and the empty
string fall through to the default. -/
def jsOr (a : Option String) (dflt : String) : String :=
  match a with
  | some s => if s == "" then dflt else s
  | Option.none => dflt

/-- JSON.stringify escaping of one character (quote and backslash; the
claims only exercise plain text, control characters are kept verbatim). -/
def escChar (c : Char) : String :=
  if c = '\x22' then "\\\x22" else if c = '\\' then "\\\\" else String.singleton c

/-- Body of a JSON string literal. -/
def escapeJson (s : String) : String :=
  String.join (s.data.map escChar)

/-- A JSON string literal. -/
def jstr (s : String) : String :=
  "\x22" ++ escapeJson s ++ "\x22"

/-- JSON.stringify of one Atom, property order id, content, timestamp,
author; an undefined author is omitted, as JSON.stringify does. -/
def stringifyAtom (a : Atom) : String :=
  "\x7b\x22id\x22:" ++ jstr a.id
    ++ ",\x22content\x22:" ++ jstr a.content
    ++ ",\x22timestamp\x22:" ++ toString a.timestamp
    ++ (match a.author with
        | some au => ",\x22author\x22:" ++ jstr au
        | Option.none => "")
    ++ "\x7d"

/-- JSON.stringify of a list of atoms. -/
def stringifyAtoms (atoms : List Atom) : String :=
  "[" ++ String.intercalate "," (atoms.map stringifyAtom) ++ "]"

/-- The wire message built by broadcastAtom: type new_atom with the atom. -/
def newAtomMessage (atom : Atom) : String :=
  "\x7b\x22type\x22:\x22new_atom\x22,\x22atom\x22:" ++ stringifyAtom atom ++ "\x7d"

/-- The bodies the LiveBlog constructs for its Responses, kept structured;
`serialize` below gives the exact bytes each stands for. -/
inductive Body where
  | text (s : String)
  | atomsJson (atoms : List Atom)
  | errorJson (msg : String)
  | successJson (atom : Atom)
  | metadataJson (m : LiveBlogMetadata)
  | empty
deriving Repr, DecidableEq

/-- The exact byte string each constructed Response body serializes to. -/
def Body.serialize : Body → String
  | Body.text s => s
  | Body.atomsJson atoms => "\x7b\x22atoms\x22:" ++ stringifyAtoms atoms ++ "\x7d"
  | Body.errorJson msg => "\x7b\x22error\x22:" ++ jstr msg ++ "\x7d"
  | Body.successJson atom => "\x7b\x22success\x22:true,\x22atom\x22:" ++ stringifyAtom atom ++ "\x7d"
  | Body.metadataJson m =>
      "\x7b\x22id\x22:" ++ jstr m.id ++ ",\x22name\x22:" ++ jstr m.name
        ++ ",\x22createdAt\x22:" ++ toString m.createdAt ++ "\x7d"
  | Body.empty => ""

/-- An HTTP Response from the object: status, body, and the client
WebSocket when the response completes an upgrade. -/
structure Response where
  status : Nat
  body : Body
  webSocket : Option Handle
deriving Repr, DecidableEq

/-- An inbound Request as the object sees it: URL pathname, method, the
Upgrade header (null when absent), and the parsed JSON body for POST
(none when request.json() would throw). -/
structure Req where
  path : String
  method : String
  upgradeHeader : Option String
  body : Option CreateBody
deriving Repr, DecidableEq

/-- getAllAtoms: read key 'atoms'; an unwritten key yields the empty list. -/
def getAllAtoms (storage : Storage) : List Atom :=
  (storage.atoms).getD []

/-- storeAtom: read the existing atoms, push the new one, write the whole
list back to key 'atoms' as one durable put. -/
def storeAtom (storage : Storage) (atom : Atom) : Storage :=
  { storage with atoms := some (getAllAtoms storage ++ [atom]) }

/-- broadcastAtom: serialize the message once, then iterate the sessions
Map attempting ws.send on every entry; an entry whose send throws is
caught and deleted from the Map. Map.forEach visits every entry of the
original Map even when the visited entry deletes itself, so the attempts
are a map over the entries and the surviving Map is a filter.
Returns (send attempts as handle-message pairs, the sessions Map after). -/
def broadcastAtom (sessions : List (Handle × Session)) (sendFails : Handle → Bool)
    (atom : Atom) : List (Handle × String) × List (Handle × Session) :=
  let message := newAtomMessage atom
  (sessions.map (fun p => (p.1, message)),
   sessions.filter (fun p => !(sendFails p.1)))

/-- Everything observable from one handleCreateAtom call: the Response,
the storage and sessions afterward, and the send attempts made. -/
structure CreateResult where
  response : Response
  storage : Storage
  sessions : List (Handle × Session)
  sends : List (Handle × String)
deriving Repr

/-- The atom handleCreateAtom constructs from a validated body: fresh
uuid, trimmed content, current time, author defaulted to Anonymous. -/
def mkAtom (b : CreateBody) (uuid : String) (now : Nat) : Atom :=
  { id := uuid,
    content := jsTrim (contentString b.content),
    timestamp := now,
    author := some (jsOr b.author "Anonymous") }

/-- handleCreateAtom: parse the body (a throw is caught as a 500); reject
missing/empty/non-string content with a 400; otherwise build the atom with
a fresh uuid, trimmed content, current time and author defaulted to
Anonymous, store it (a put that throws is caught as a 500 and nothing
later runs), then broadcast, then answer success with the atom. -/
def handleCreateAtom (st : DOState) (body : Option CreateBody) (uuid : String)
    (now : Nat) (putOk : Bool) (sendFails : Handle → Bool) : CreateResult :=
  match body with
  | Option.none =>
      { response := { status := 500, body := Body.errorJson "Failed to create atom",
                      webSocket := Option.none },
        storage := st.storage, sessions := st.sessions, sends := [] }
  | some b =>
      if contentRejected b.content then
        { response := { status := 400, body := Body.errorJson "Content is required",
                        webSocket := Option.none },
          storage := st.storage, sessions := st.sessions, sends := [] }
      else
        let atom : Atom := mkAtom b uuid now
        if putOk then
          let bc := broadcastAtom st.sessions sendFails atom
          { response := { status := 200, body := Body.successJson atom,
                          webSocket := Option.none },
            storage := storeAtom st.storage atom,
            sessions := bc.2, sends := bc.1 }
        else
          { response := { status := 500, body := Body.errorJson "Failed to create atom",
                          webSocket := Option.none },
            storage := st.storage, sessions := st.sessions, sends := [] }

/-- handleGetAtoms: read the full log and answer it as JSON. -/
def handleGetAtoms (storage : Storage) : Response :=
  { status := 200, body := Body.atomsJson (getAllAtoms storage), webSocket := Option.none }

/-- The metadata handleGetMetadata synthesizes on first call: the DO id,
a default name from its first eight characters, and the current time. -/
def mkMetadata (doId : String) (now : Nat) : LiveBlogMetadata :=
  { id := doId, name := "Live Blog " ++ strTake doId 8, createdAt := now }

/-- handleGetMetadata: return stored metadata; when the key is unwritten,
synthesize it from the DO id and the current time, persist it, return it. -/
def handleGetMetadata (storage : Storage) (doId : String) (now : Nat) :
    Response × Storage :=
  match storage.metadata with
  | some m =>
      ({ status := 200, body := Body.metadataJson m, webSocket := Option.none }, storage)
  | Option.none =>
      ({ status := 200, body := Body.metadataJson (mkMetadata doId now),
         webSocket := Option.none },
       { storage with metadata := some (mkMetadata doId now) })

/-- handleWebSocketUpgrade: 426 unless the Upgrade header equals websocket,
then 400 unless the method is GET; otherwise accept the server WebSocket,
attach the fresh session id so it survives hibernation, record the session
in the Map, and answer 101 with the client WebSocket. -/
def handleWebSocketUpgrade (st : DOState) (conns : HostConns) (req : Req)
    (clientWs serverWs : Handle) (sessionId : String) :
    Response × DOState × HostConns :=
  if (req.upgradeHeader).isNone || req.upgradeHeader != some "websocket" then
    ({ status := 426, body := Body.text "Expected Upgrade: websocket",
       webSocket := Option.none }, st, conns)
  else if req.method != "GET" then
    ({ status := 400, body := Body.text "Expected GET method",
       webSocket := Option.none }, st, conns)
  else
    ({ status := 101, body := Body.empty, webSocket := some clientWs },
     { storage := st.storage,
       sessions := st.sessions ++ [(serverWs, { id := sessionId })] },
     conns ++ [(serverWs, some { id := sessionId })])

/-- One step of the constructor's recovery loop: read the attachment of
one WebSocket back and, if present, reinsert the session into the Map. -/
def rebuildStep (m : List (Handle × Session)) (p : Handle × Option Session) :
    List (Handle × Session) :=
  match p.2 with
  | some att => m ++ [(p.1, att)]
  | Option.none => m

/-- The constructor's hibernation recovery: for every WebSocket the
platform still holds, read its attachment back and, if present, reinsert
the session into the Map. -/
def rebuildSessions (conns : HostConns) : List (Handle × Session) :=
  conns.foldl rebuildStep []

/-- The nondeterministic platform inputs one fetch may consume. -/
structure FetchCtx where
  wsClient : Handle
  wsServer : Handle
  sessionId : String
  uuid : String
  now : Nat
  doId : String
  putOk : Bool
  sendFails : Handle → Bool

/-- Everything observable from one fetch call. -/
structure FetchResult where
  response : Response
  state : DOState
  conns : HostConns
  sends : List (Handle × String)

/-- LiveBlog.fetch: suffix-match the pathname and dispatch. A path ending
in /websocket goes to the upgrade handler whatever the method; /atoms
serves GET and POST; /metadata serves GET; everything else is 404. -/
def fetch (st : DOState) (conns : HostConns) (req : Req) (ctx : FetchCtx) :
    FetchResult :=
  if strEndsWith req.path "/websocket" then
    let r := handleWebSocketUpgrade st conns req ctx.wsClient ctx.wsServer ctx.sessionId
    { response := r.1, state := r.2.1, conns := r.2.2, sends := [] }
  else if strEndsWith req.path "/atoms" && req.method == "GET" then
    { response := handleGetAtoms st.storage, state := st, conns := conns, sends := [] }
  else if strEndsWith req.path "/atoms" && req.method == "POST" then
    let r := handleCreateAtom st req.body ctx.uuid ctx.now ctx.putOk ctx.sendFails
    { response := r.response,
      state := { storage := r.storage, sessions := r.sessions },
      conns := conns, sends := r.sends }
  else if strEndsWith req.path "/metadata" && req.method == "GET" then
    let r := handleGetMetadata st.storage ctx.doId ctx.now
    { response := r.1,
      state := { storage := r.2, sessions := st.sessions },
      conns := conns, sends := [] }
  else
    { response := { status := 404, body := Body.text "Not Found", webSocket := Option.none },
      state := st, conns := conns, sends := [] }

/-- The atom a success Response carries (undefined for other responses). -/
def CreateResult.createdAtom (r : CreateResult) : Option Atom :=
  match r.response.body with
  | Body.successJson a => some a
  | _ => Option.none

/-- Platform inputs consumed by one appendEvent call: the parsed POST
body, the uuid crypto.randomUUID drew, and the Date.now reading. -/
structure AppendCall where
  body : CreateBody
  uuid : String
  now : Nat
deriving Repr, DecidableEq

/-- One appendEvent call in a run where every durable put succeeds and no
send throws: the state afterward and the atom returned, if any. -/
def appendStep (st : DOState) (c : AppendCall) : DOState × Option Atom :=
  let r := handleCreateAtom st (some c.body) c.uuid c.now true (fun _ => false)
  ({ storage := r.storage, sessions := r.sessions }, r.createdAtom)

/-- A sequence of appendEvent calls, collecting the returned atoms in call
order. -/
def runAppends : DOState → List AppendCall → DOState × List Atom
  | st, [] => (st, [])
  | st, c :: cs =>
      ((runAppends ((appendStep st c).1) cs).1,
       ((appendStep st c).2).toList ++ (runAppends ((appendStep st c).1) cs).2)

/-- The request shape of a well-formed reader connection attempt. -/
def wsRequest : Req :=
  { path := "/websocket", method := "GET", upgradeHeader := some "websocket",
    body := Option.none }

/-- One accepted reader connection: the platform hands a fresh server-side
WebSocket handle and a generated session id. -/
def openStep (sp : DOState × HostConns) (c : Handle × String) :
    DOState × HostConns :=
  let r := handleWebSocketUpgrade sp.1 sp.2 wsRequest c.1 c.1 c.2
  (r.2.1, r.2.2)

/-- A sequence of accepted reader connections. -/
def runOpens : DOState × HostConns → List (Handle × String) → DOState × HostConns
  | sp, [] => sp
  | sp, c :: cs => runOpens (openStep sp c) cs

/-- Concrete fixtures used by the witnesses. -/
def bodyHi : CreateBody := { content := some (JsValue.str "hi"), author := Option.none }

/-- Two registered reader sessions over an empty log. -/
def twoSessionState : DOState :=
  { storage := { atoms := Option.none, metadata := Option.none },
    sessions := [(1, { id := "a" }), (2, { id := "b" })] }

theorem getAllAtoms_storeAtom (storage : Storage) (atom : Atom) :
    getAllAtoms (storeAtom storage atom) = getAllAtoms storage ++ [atom] := by
  simp [getAllAtoms, storeAtom]

theorem handleCreateAtom_rejected (st : DOState) (b : CreateBody) (uuid : String)
    (now : Nat) (putOk : Bool) (sf : Handle → Bool)
    (h : contentRejected b.content = true) :
    handleCreateAtom st (some b) uuid now putOk sf =
      { response := { status := 400, body := Body.errorJson "Content is required",
                      webSocket := Option.none },
        storage := st.storage, sessions := st.sessions, sends := [] } := by
  simp [handleCreateAtom, h]

theorem handleCreateAtom_valid (st : DOState) (b : CreateBody) (uuid : String)
    (now : Nat) (sf : Handle → Bool)
    (h : contentRejected b.content = false) :
    handleCreateAtom st (some b) uuid now true sf =
      { response := { status := 200, body := Body.successJson (mkAtom b uuid now),
                      webSocket := Option.none },
        storage := storeAtom st.storage (mkAtom b uuid now),
        sessions := st.sessions.filter (fun p => !(sf p.1)),
        sends := st.sessions.map (fun p => (p.1, newAtomMessage (mkAtom b uuid now))) } := by
  simp [handleCreateAtom, h, broadcastAtom]

theorem handleCreateAtom_putFail (st : DOState) (b : CreateBody) (uuid : String)
    (now : Nat) (sf : Handle → Bool)
    (h : contentRejected b.content = false) :
    handleCreateAtom st (some b) uuid now false sf =
      { response := { status := 500, body := Body.errorJson "Failed to create atom",
                      webSocket := Option.none },
        storage := st.storage, sessions := st.sessions, sends := [] } := by
  simp [handleCreateAtom, h]

theorem contentRejected_iff (c : Option JsValue) :
    contentRejected c = true ↔
      (c = Option.none ∨ c = some (JsValue.str "")
        ∨ ∃ t, c = some (JsValue.nonText t)) := by
  rcases c with _ | v
  · simp [contentRejected, jsFalsy, isStringContent]
  · rcases v with s | t
    · by_cases hs : s = "" <;>
        simp [contentRejected, jsFalsy, isStringContent, hs]
    · simp [contentRejected, jsFalsy, isStringContent]

theorem contentRejected_str (s : String) (hs : s ≠ "") :
    contentRejected (some (JsValue.str s)) = false := by
  simp [contentRejected, jsFalsy, isStringContent, hs]

/-- C2: for every appendEvent call the durable write commits before any
broadcast send is attempted (a send attempt implies the atom is already in
storage, and a successful put stores the atom before the fan-out runs);
when the durable write fails the caller gets a 500 StorageFailure
response, storage is unchanged and no broadcast send occurs. -/
theorem persist_before_broadcast (st : DOState) (b : CreateBody) (uuid : String)
    (now : Nat) (putOk : Bool) (sf : Handle → Bool)
    (hv : contentRejected b.content = false) :
    ((handleCreateAtom st (some b) uuid now putOk sf).sends ≠ [] →
       (handleCreateAtom st (some b) uuid now putOk sf).storage
         = storeAtom st.storage (mkAtom b uuid now))
    ∧ (putOk = true →
       (handleCreateAtom st (some b) uuid now putOk sf).storage
         = storeAtom st.storage (mkAtom b uuid now))
    ∧ (putOk = false →
       handleCreateAtom st (some b) uuid now putOk sf =
         { response := { status := 500, body := Body.errorJson "Failed to create atom",
                         webSocket := Option.none },
           storage := st.storage, sessions := st.sessions, sends := [] }) := by
  cases putOk with
  | true =>
      rw [handleCreateAtom_valid st b uuid now sf hv]
      exact ⟨fun _ => rfl, fun _ => rfl, fun hc => absurd hc (by simp)⟩
  | false =>
      rw [handleCreateAtom_putFail st b uuid now sf hv]
      exact ⟨fun hc => absurd rfl hc, fun hc => absurd hc (by simp), fun _ => rfl⟩

theorem persist_before_broadcast_witness :
    handleCreateAtom twoSessionState (some bodyHi) "u" 7 false (fun _ => false) =
      { response := { status := 500, body := Body.errorJson "Failed to create atom",
                      webSocket := Option.none },
        storage := twoSessionState.storage, sessions := twoSessionState.sessions,
        sends := [] } :=
  (persist_before_broadcast twoSessionState bodyHi "u" 7 false (fun _ => false)
    (by decide)).2.2 rfl

/-- C3: an appendEvent call is answered 400 exactly when the supplied
content is absent, the empty string, or not text; a rejected call leaves
storage and sessions untouched and sends nothing, and its body is the
structured error; content hi succeeds with a 200. -/
theorem validation_error_iff (st : DOState) (uuid : String) (now : Nat)
    (putOk : Bool) (sf : Handle → Bool) (b : CreateBody) :
    ((handleCreateAtom st (some b) uuid now putOk sf).response.status = 400
       ↔ (b.content = Option.none ∨ b.content = some (JsValue.str "")
            ∨ ∃ t, b.content = some (JsValue.nonText t)))
    ∧ (contentRejected b.content = true →
         handleCreateAtom st (some b) uuid now putOk sf =
           { response := { status := 400, body := Body.errorJson "Content is required",
                           webSocket := Option.none },
             storage := st.storage, sessions := st.sessions, sends := [] })
    ∧ (∀ au, (handleCreateAtom st
          (some { content := some (JsValue.str "hi"), author := au })
          uuid now true sf).response.status = 200) := by
  refine ⟨?_, ?_, ?_⟩
  · rw [← contentRejected_iff]
    by_cases h : contentRejected b.content = true
    · rw [handleCreateAtom_rejected st b uuid now putOk sf h]
      simp [h]
    · rw [Bool.not_eq_true] at h
      cases putOk with
      | true => rw [handleCreateAtom_valid st b uuid now sf h]; simp [h]
      | false => rw [handleCreateAtom_putFail st b uuid now sf h]; simp [h]
  · exact handleCreateAtom_rejected st b uuid now putOk sf
  · intro au
    rw [handleCreateAtom_valid st _ uuid now sf (contentRejected_str "hi" (by decide))]

theorem validation_error_iff_witness :
    (handleCreateAtom freshState
        (some { content := Option.none, author := Option.none })
        "u" 0 true (fun _ => false)).response.status = 400 :=
  (validation_error_iff freshState "u" 0 true (fun _ => false)
    { content := Option.none, author := Option.none }).1.mpr (Or.inl rfl)

/-- C5: one appendEvent against a registry of N sessions makes exactly N
send attempts, one per registered session in registry order, each carrying
the identical serialized new_atom payload for the created event. -/
theorem fanout_complete (st : DOState) (b : CreateBody) (uuid : String)
    (now : Nat) (sf : Handle → Bool) (hv : contentRejected b.content = false) :
    (handleCreateAtom st (some b) uuid now true sf).sends
      = st.sessions.map (fun p => (p.1, newAtomMessage (mkAtom b uuid now)))
    ∧ ((handleCreateAtom st (some b) uuid now true sf).sends).length
        = (st.sessions).length
    ∧ ∀ p ∈ (handleCreateAtom st (some b) uuid now true sf).sends,
        p.2 = newAtomMessage (mkAtom b uuid now) := by
  rw [handleCreateAtom_valid st b uuid now sf hv]
  refine ⟨rfl, by simp, ?_⟩
  intro p hp
  simp only [List.mem_map] at hp
  obtain ⟨q, _, rfl⟩ := hp
  rfl

theorem fanout_complete_witness :
    (handleCreateAtom twoSessionState (some bodyHi) "u" 7 true (fun _ => false)).sends
      = [(1, newAtomMessage (mkAtom bodyHi "u" 7)),
         (2, newAtomMessage (mkAtom bodyHi "u" 7))] :=
  (fanout_complete twoSessionState bodyHi "u" 7 (fun _ => false) (by decide)).1

/-- C6: a failing send aborts nothing: every registered session still gets
a send attempt with the event payload, every failing session is absent
from the registry afterward (exactly the non-failing ones remain), and the
append is still answered with the success response carrying the atom. -/
theorem failure_isolation (st : DOState) (b : CreateBody) (uuid : String)
    (now : Nat) (sf : Handle → Bool) (hv : contentRejected b.content = false) :
    (∀ p ∈ st.sessions,
        (p.1, newAtomMessage (mkAtom b uuid now))
          ∈ (handleCreateAtom st (some b) uuid now true sf).sends)
    ∧ (handleCreateAtom st (some b) uuid now true sf).sessions
        = st.sessions.filter (fun p => !(sf p.1))
    ∧ (∀ p ∈ st.sessions, sf p.1 = true →
        p ∉ (handleCreateAtom st (some b) uuid now true sf).sessions)
    ∧ (handleCreateAtom st (some b) uuid now true sf).response
        = { status := 200, body := Body.successJson (mkAtom b uuid now),
            webSocket := Option.none } := by
  rw [handleCreateAtom_valid st b uuid now sf hv]
  refine ⟨?_, rfl, ?_, rfl⟩
  · intro p hp
    exact List.mem_map.mpr ⟨p, hp, rfl⟩
  · intro p _ hf hmem
    have := (List.mem_filter.mp hmem).2
    simp [hf] at this

theorem failure_isolation_witness :
    (handleCreateAtom twoSessionState (some bodyHi) "u" 7 true (fun h => h == 1)).sessions
      = [(2, { id := "b" })] :=
  (failure_isolation twoSessionState bodyHi "u" 7 (fun h => h == 1) (by decide)).2.1

/-- C10: every non-empty string content passes validation, including
whitespace-only ones, and the created atom that is returned, stored and
broadcast carries the input with leading and trailing whitespace removed,
which can differ from the submitted content. -/
theorem trim_applied (st : DOState) (uuid : String) (now : Nat)
    (sf : Handle → Bool) (au : Option String) (s : String) (hs : s ≠ "") :
    handleCreateAtom st (some { content := some (JsValue.str s), author := au })
        uuid now true sf =
      { response := { status := 200,
                      body := Body.successJson
                        (mkAtom { content := some (JsValue.str s), author := au } uuid now),
                      webSocket := Option.none },
        storage := storeAtom st.storage
          (mkAtom { content := some (JsValue.str s), author := au } uuid now),
        sessions := st.sessions.filter (fun p => !(sf p.1)),
        sends := st.sessions.map (fun p =>
          (p.1, newAtomMessage
            (mkAtom { content := some (JsValue.str s), author := au } uuid now))) }
    ∧ (mkAtom { content := some (JsValue.str s), author := au } uuid now).content
        = jsTrim s := by
  refine ⟨handleCreateAtom_valid st _ uuid now sf (contentRejected_str s hs), rfl⟩

theorem trim_applied_witness :
    (handleCreateAtom freshState
        (some { content := some (JsValue.str "   "), author := Option.none })
        "u" 7 true (fun _ => false)).response.body
      = Body.successJson { id := "u", content := "", timestamp := 7,
                           author := some "Anonymous" }
    ∧ jsTrim "   " ≠ "   " := by
  have h := (trim_applied freshState "u" 7 (fun _ => false) Option.none "   "
    (by decide)).1
  rw [h]
  exact ⟨rfl, by decide⟩

/-- C8: getMetadata is idempotent: the first call on a room with no stored
metadata synthesizes and persists the RoomMetadata with createdAt fixed at
that call's clock, and every later call returns the same response pair,
with byte-identical serialized bodies, without changing the stored value. -/
theorem metadata_idempotent (storage : Storage) (doId : String) (t1 t2 : Nat)
    (h : storage.metadata = Option.none) :
    handleGetMetadata ((handleGetMetadata storage doId t1).2) doId t2
      = handleGetMetadata storage doId t1
    ∧ ((handleGetMetadata storage doId t1).2).metadata
        = some (mkMetadata doId t1)
    ∧ Body.serialize
        ((handleGetMetadata ((handleGetMetadata storage doId t1).2) doId t2).1).body
        = Body.serialize ((handleGetMetadata storage doId t1).1).body := by
  have h1 : handleGetMetadata storage doId t1
      = ({ status := 200, body := Body.metadataJson (mkMetadata doId t1),
           webSocket := Option.none },
         { atoms := storage.atoms, metadata := some (mkMetadata doId t1) }) := by
    simp [handleGetMetadata, h]
  rw [h1]
  exact ⟨rfl, rfl, rfl⟩

theorem metadata_idempotent_witness :
    handleGetMetadata ((handleGetMetadata freshState.storage "room" 5).2) "room" 9
      = handleGetMetadata freshState.storage "room" 5 :=
  (metadata_idempotent freshState.storage "room" 5 9 rfl).1

/-- C4 as stated is false on the code: a POST carrying a correct Upgrade
header to the websocket operation is refused with status 400, not 426. -/
theorem upgrade_wrong_method_cex :
    ((handleWebSocketUpgrade freshState []
        { path := "/websocket", method := "POST", upgradeHeader := some "websocket",
          body := Option.none } 0 1 "sid").1).status = 400
    ∧ (400 : Nat) ≠ 426 := by decide

/-- C4 amended: a missing or wrong Upgrade header is refused with 426
whatever the method; a correct header with a method other than GET is
refused with 400; a GET with the correct header is accepted with a 101
carrying the client socket, the session registered and attached. -/
theorem upgrade_status (st : DOState) (conns : HostConns) (req : Req)
    (clientWs serverWs : Handle) (sessionId : String) :
    (req.upgradeHeader ≠ some "websocket" →
       handleWebSocketUpgrade st conns req clientWs serverWs sessionId
         = ({ status := 426, body := Body.text "Expected Upgrade: websocket",
              webSocket := Option.none }, st, conns))
    ∧ (req.upgradeHeader = some "websocket" → req.method ≠ "GET" →
       handleWebSocketUpgrade st conns req clientWs serverWs sessionId
         = ({ status := 400, body := Body.text "Expected GET method",
              webSocket := Option.none }, st, conns))
    ∧ (req.upgradeHeader = some "websocket" → req.method = "GET" →
       handleWebSocketUpgrade st conns req clientWs serverWs sessionId
         = ({ status := 101, body := Body.empty, webSocket := some clientWs },
            { storage := st.storage,
              sessions := st.sessions ++ [(serverWs, { id := sessionId })] },
            conns ++ [(serverWs, some { id := sessionId })])) := by
  refine ⟨?_, ?_, ?_⟩
  · intro h
    have hb : (req.upgradeHeader != some "websocket") = true := by
      simpa [bne_iff_ne] using h
    simp [handleWebSocketUpgrade, hb]
  · intro h hm
    have hb : (req.method != "GET") = true := by simpa [bne_iff_ne] using hm
    simp [handleWebSocketUpgrade, h, hb]
  · intro h hm
    simp [handleWebSocketUpgrade, h, hm]

theorem upgrade_status_witness :
    handleWebSocketUpgrade freshState [] wsRequest 5 6 "sid"
      = ({ status := 101, body := Body.empty, webSocket := some 5 },
         { storage := freshState.storage, sessions := [(6, { id := "sid" })] },
         [(6, some { id := "sid" })]) :=
  (upgrade_status freshState [] wsRequest 5 6 "sid").2.2 rfl rfl

theorem appendStep_log (st : DOState) (c : AppendCall) :
    getAllAtoms (((appendStep st c).1).storage)
      = getAllAtoms st.storage ++ ((appendStep st c).2).toList := by
  by_cases h : contentRejected c.body.content = true
  · have e := handleCreateAtom_rejected st c.body c.uuid c.now true (fun _ => false) h
    simp [appendStep, e, CreateResult.createdAtom]
  · rw [Bool.not_eq_true] at h
    have e := handleCreateAtom_valid st c.body c.uuid c.now (fun _ => false) h
    simp [appendStep, e, CreateResult.createdAtom, getAllAtoms_storeAtom]

theorem appendStep_created (st : DOState) (c : AppendCall)
    (h : contentRejected c.body.content = false) :
    (appendStep st c).2 = some (mkAtom c.body c.uuid c.now) := by
  have e := handleCreateAtom_valid st c.body c.uuid c.now (fun _ => false) h
  simp [appendStep, e, CreateResult.createdAtom]

theorem runAppends_log (st : DOState) (cs : List AppendCall) :
    getAllAtoms (((runAppends st cs).1).storage)
      = getAllAtoms st.storage ++ (runAppends st cs).2 := by
  induction cs generalizing st with
  | nil => simp [runAppends]
  | cons c cs ih =>
      simp only [runAppends]
      rw [ih, appendStep_log]
      simp [List.append_assoc]

theorem runAppends_count (st : DOState) (cs : List AppendCall)
    (hv : ∀ c ∈ cs, contentRejected c.body.content = false) :
    ((runAppends st cs).2).length = cs.length := by
  induction cs generalizing st with
  | nil => simp [runAppends]
  | cons c cs ih =>
      simp only [runAppends, List.length_append, List.length_cons]
      rw [appendStep_created st c (hv c (by simp))]
      rw [ih _ (fun c' hc' => hv c' (by simp [hc']))]
      simp [Nat.add_comm]

/-- C1: starting from a fresh room, any sequence of valid appendEvent
calls leaves the log holding exactly the atoms those calls returned, in
call order, and listEvents answers 200 with that sequence oldest-first;
each call produced one atom; and with no appends at all listEvents
succeeds with the empty sequence. -/
theorem append_then_read (calls : List AppendCall)
    (hv : ∀ c ∈ calls, contentRejected c.body.content = false) :
    handleGetAtoms (((runAppends freshState calls).1).storage)
      = { status := 200, body := Body.atomsJson ((runAppends freshState calls).2),
          webSocket := Option.none }
    ∧ ((runAppends freshState calls).2).length = calls.length
    ∧ handleGetAtoms freshState.storage
        = { status := 200, body := Body.atomsJson [], webSocket := Option.none } := by
  refine ⟨?_, runAppends_count freshState calls hv, rfl⟩
  unfold handleGetAtoms
  rw [runAppends_log]
  rfl

/-- The scenario sequence: a post by Alex, then an anonymous one. -/
def demoCalls : List AppendCall :=
  [{ body := { content := some (JsValue.str "Game starts"), author := some "Alex" },
     uuid := "u1", now := 5 },
   { body := { content := some (JsValue.str "Halftime"), author := Option.none },
     uuid := "u2", now := 9 }]

theorem append_then_read_witness :
    handleGetAtoms (((runAppends freshState demoCalls).1).storage)
      = { status := 200, body := Body.atomsJson ((runAppends freshState demoCalls).2),
          webSocket := Option.none }
    ∧ ((runAppends freshState demoCalls).2).length = demoCalls.length
    ∧ handleGetAtoms freshState.storage
        = { status := 200, body := Body.atomsJson [], webSocket := Option.none } :=
  append_then_read demoCalls (by decide)

theorem foldl_rebuildStep (conns : HostConns) (acc : List (Handle × Session)) :
    conns.foldl rebuildStep acc = acc ++ conns.foldl rebuildStep [] := by
  induction conns generalizing acc with
  | nil => simp
  | cons p rest ih =>
      obtain ⟨hd, att⟩ := p
      cases att with
      | none =>
          simp only [List.foldl_cons, rebuildStep]
          exact ih acc
      | some a =>
          simp only [List.foldl_cons, rebuildStep, List.nil_append]
          rw [ih (acc ++ [(hd, a)]), ih [(hd, a)]]
          simp [List.append_assoc]

theorem rebuildSessions_cons (p : Handle × Option Session) (rest : HostConns) :
    rebuildSessions (p :: rest) = rebuildStep [] p ++ rebuildSessions rest := by
  unfold rebuildSessions
  rw [List.foldl_cons, foldl_rebuildStep]

theorem rebuildSessions_mem (conns : HostConns) (h : Handle) (s : Session) :
    (h, s) ∈ rebuildSessions conns ↔ (h, some s) ∈ conns := by
  induction conns with
  | nil => simp [rebuildSessions]
  | cons p rest ih =>
      obtain ⟨hd, att⟩ := p
      rw [rebuildSessions_cons]
      cases att with
      | none => simp [rebuildStep, ih]
      | some a => simp [rebuildStep, ih, Prod.ext_iff]

theorem rebuildSessions_map (l : List (Handle × Session)) :
    rebuildSessions (l.map (fun p => (p.1, some p.2))) = l := by
  induction l with
  | nil => rfl
  | cons p rest ih =>
      simp only [List.map_cons, rebuildSessions_cons, rebuildStep, ih]
      rfl

theorem runOpens_conns (opens : List (Handle × String)) (st : DOState)
    (conns : HostConns)
    (hinv : conns = st.sessions.map (fun p => (p.1, some p.2))) :
    (runOpens (st, conns) opens).2
      = ((runOpens (st, conns) opens).1).sessions.map (fun p => (p.1, some p.2)) := by
  induction opens generalizing st conns with
  | nil => simpa [runOpens] using hinv
  | cons c cs ih =>
      simp only [runOpens]
      have hstep : openStep (st, conns) c
          = ({ storage := st.storage,
               sessions := st.sessions ++ [(c.1, { id := c.2 })] },
             conns ++ [(c.1, some { id := c.2 })]) := by
        simp [openStep, handleWebSocketUpgrade, wsRequest]
      rw [hstep]
      exact ih _ _ (by simp [hinv])

/-- C7: passivation then reactivation round-trips the session registry:
after any sequence of accepted connections, rebuilding the registry from
the platform's surviving connections and their persisted attachments
yields exactly the registry restricted to the surviving connections; and
in general a rebuilt registry holds a pair exactly when the platform holds
that connection with that attachment, so a connection without an
attachment is never inserted. -/
theorem activation_round_trip (opens : List (Handle × String))
    (stillOpen : Handle → Bool) :
    rebuildSessions (((runOpens (freshState, []) opens).2).filter
        (fun p => stillOpen p.1))
      = ((runOpens (freshState, []) opens).1).sessions.filter
          (fun p => stillOpen p.1)
    ∧ ∀ (conns : HostConns) (h : Handle) (s : Session),
        (h, s) ∈ rebuildSessions conns ↔ (h, some s) ∈ conns := by
  constructor
  · have hc := runOpens_conns opens freshState [] (by simp [freshState])
    rw [hc, List.filter_map, rebuildSessions_map]
    rfl
  · exact fun conns h s => rebuildSessions_mem conns h s

theorem activation_round_trip_witness :
    rebuildSessions (((runOpens (freshState, []) [(4, "a"), (7, "b")]).2).filter
        (fun p => p.1 == 4))
      = ((runOpens (freshState, []) [(4, "a"), (7, "b")]).1).sessions.filter
          (fun p => p.1 == 4) :=
  (activation_round_trip [(4, "a"), (7, "b")] (fun h => h == 4)).1

/-- A fixed set of platform inputs for concrete fetch evaluations. -/
def demoCtx : FetchCtx :=
  { wsClient := 0, wsServer := 1, sessionId := "s", uuid := "u", now := 0,
    doId := "d", putOk := true, sendFails := fun _ => false }

/-- C9 as stated is false on the code: a POST to the websocket path is
not answered 404; it is routed to the upgrade handler, which refuses it
with 426 for the missing Upgrade header. -/
theorem fetch_post_websocket_cex :
    ((fetch freshState []
        { path := "/websocket", method := "POST", upgradeHeader := Option.none,
          body := Option.none } demoCtx).response).status = 426
    ∧ (426 : Nat) ≠ 404 := by
  constructor
  · rfl
  · decide

/-- C9 amended: a request whose path does not end in /websocket, is not a
GET or POST to a path ending in /atoms, and is not a GET to a path ending
in /metadata, is answered 404 Not Found with no change to room state; a
request whose path ends in /websocket is instead routed to the upgrade
handler whatever its method, answering 426, 400 or 101 and never 404. -/
theorem fetch_routing (st : DOState) (conns : HostConns) (req : Req)
    (ctx : FetchCtx) :
    ((strEndsWith req.path "/websocket" = false) →
     (strEndsWith req.path "/atoms" = false ∨ (req.method ≠ "GET" ∧ req.method ≠ "POST")) →
     (strEndsWith req.path "/metadata" = false ∨ req.method ≠ "GET") →
       fetch st conns req ctx
         = { response := { status := 404, body := Body.text "Not Found",
                           webSocket := Option.none },
             state := st, conns := conns, sends := [] })
    ∧ (strEndsWith req.path "/websocket" = true →
        ((fetch st conns req ctx).response.status = 426
          ∨ (fetch st conns req ctx).response.status = 400
          ∨ (fetch st conns req ctx).response.status = 101)
        ∧ (fetch st conns req ctx).response.status ≠ 404) := by
  constructor
  · intro h1 h2 h3
    have ha : (strEndsWith req.path "/atoms" && req.method == "GET") = false := by
      rcases h2 with h | ⟨hg, _⟩
      · simp [h]
      · simp [hg]
    have hb : (strEndsWith req.path "/atoms" && req.method == "POST") = false := by
      rcases h2 with h | ⟨_, hp⟩
      · simp [h]
      · simp [hp]
    have hc : (strEndsWith req.path "/metadata" && req.method == "GET") = false := by
      rcases h3 with h | hg
      · simp [h]
      · simp [hg]
    simp [fetch, h1, ha, hb, hc]
  · intro h
    have hf : fetch st conns req ctx
        = { response := (handleWebSocketUpgrade st conns req ctx.wsClient
              ctx.wsServer ctx.sessionId).1,
            state := (handleWebSocketUpgrade st conns req ctx.wsClient
              ctx.wsServer ctx.sessionId).2.1,
            conns := (handleWebSocketUpgrade st conns req ctx.wsClient
              ctx.wsServer ctx.sessionId).2.2,
            sends := [] } := by
      simp [fetch, h]
    rw [hf]
    by_cases hu : req.upgradeHeader = some "websocket"
    · by_cases hm : req.method = "GET"
      · rw [(upgrade_status st conns req ctx.wsClient ctx.wsServer ctx.sessionId).2.2 hu hm]
        exact ⟨Or.inr (Or.inr rfl), by simp⟩
      · rw [(upgrade_status st conns req ctx.wsClient ctx.wsServer ctx.sessionId).2.1 hu hm]
        exact ⟨Or.inr (Or.inl rfl), by simp⟩
    · rw [(upgrade_status st conns req ctx.wsClient ctx.wsServer ctx.sessionId).1 hu]
      exact ⟨Or.inl rfl, by simp⟩

theorem fetch_routing_witness :
    fetch freshState []
        { path := "/nowhere", method := "GET", upgradeHeader := Option.none,
          body := Option.none } demoCtx
      = { response := { status := 404, body := Body.text "Not Found",
                        webSocket := Option.none },
          state := freshState, conns := [], sends := [] } :=
  (fetch_routing freshState []
      { path := "/nowhere", method := "GET", upgradeHeader := Option.none,
        body := Option.none } demoCtx).1
    (by decide) (Or.inl (by decide)) (Or.inl (by decide))
